import Mathlib

/-!
Verification of the carrier-sales negotiation engine (`app/main.py`) and
the FMCSA eligibility resolver (`app/fmcsa.py`), shallowly embedded.

Machine integers are modeled as `Int` (Python ints are unbounded). The
float arithmetic of the rate computations is modeled as exact
rational/integer arithmetic with round-half-to-even semantics; at the
magnitudes appearing in the claims the float computations are exact, so
the model agrees with the source there.
-/

/-- Python `str.lower()` (the source only feeds it ASCII). -/
def pyLower (s : String) : String := String.mk (s.data.map Char.toLower)

/-- Python `str.upper()` (the source only feeds it ASCII). -/
def pyUpper (s : String) : String := String.mk (s.data.map Char.toUpper)

/-- Keep only digit characters: `"".join(c for c in s if c.isdigit())` as in
`app/main.py` line 159, and `_digits` in `app/fmcsa.py` lines 138-139. -/
def pyDigits (s : String) : String := String.mk (s.data.filter Char.isDigit)

/-- Python `round` on an exact rational `a / b` (with `b > 0`): round to
the nearest integer, ties to the even integer. -/
def roundHalfToEven (a b : Int) : Int :=
  let f := Int.fdiv a b
  let r := a - f * b
  if 2 * r < b then f
  else if b < 2 * r then f + 1
  else if f % 2 = 0 then f else f + 1

/-- `round_to_25` from `app/main.py` (lines 134-136):
`int(round(x / 25.0) * 25)`, for `x = num / den` an exact rational. -/
def round_to_25 (num den : Int) : Int :=
  roundHalfToEven num (25 * den) * 25

/-- The equipment premium of `compute_cap` (`app/main.py` line 141):
`75 if (equipment_type or "").lower() in ("reefer", "flatbed") else 0`. -/
def equipAdd (equipment_type : Option String) : Int :=
  if pyLower (equipment_type.getD "") = "reefer" ∨
     pyLower (equipment_type.getD "") = "flatbed" then 75 else 0

/-- The short-haul premium of `compute_cap` (`app/main.py` line 142):
`50 if (miles is not None and miles < 300) else 0`. -/
def shorthaulAdd (miles : Option Int) : Int :=
  match miles with
  | some m => if m < 300 then 50 else 0
  | none => 0

/-- `compute_cap` from `app/main.py` (lines 138-144).
`int(0.25 * listed_rate)` truncates toward zero, hence `Int.tdiv`
(`0.25 * listed_rate` is float-exact at these magnitudes). -/
def compute_cap (listed_rate : Int) (miles : Option Int) (equipment_type : Option String) : Int :=
  let base := min 325 (Int.tdiv listed_rate 4)
  round_to_25 (listed_rate + base + equipAdd equipment_type + shorthaulAdd miles) 1

/-- The concession-ratio numerator (over 100) from `app/main.py` line 269:
`{1: 0.35, 2: 0.25, 3: 0.20}.get(rnd, 0.15)`. -/
def ratioNum (rnd : Int) : Int :=
  if rnd = 1 then 35 else if rnd = 2 then 25 else if rnd = 3 then 20 else 15

inductive Decision where
  | accept
  | counter
deriving DecidableEq

structure EvalResult where
  decision : Decision
  next_offer : Int
  cap_rate : Int
  round_next : Int
deriving DecidableEq

/-- The pure decision core of `evaluate_offer` from `app/main.py`
(lines 230-294), with the HTTP/session/logging plumbing stripped.
`gap * ratio` is the exact rational `(gap * ratioNum rnd) / 100`. -/
def evaluate_offer (listed prev ask : Int) (miles : Option Int)
    (equip : Option String) (rnd : Int) : EvalResult :=
  let cap := compute_cap listed miles (some (equip.getD ""))
  if ask ≤ cap ∧ (ask ≤ prev ∨ (3 ≤ rnd ∧ ask - prev ≤ 50)) then
    ⟨.accept, ask, cap, rnd + 1⟩
  else
    let target := min cap ask
    let gap := target - prev
    let next0 :=
      if gap ≤ 0 then prev
      else min cap (prev + max 25 (round_to_25 (gap * ratioNum rnd) 100))
    let next1 := if next0 < prev then prev else next0
    let next2 := if 3 ≤ rnd ∧ next1 < target then min cap (max prev next1) else next1
    ⟨.counter, next2, cap, rnd + 1⟩

/-- Default of the `miles` field of `EvaluateIn` in `app/main.py` line 44:
`miles: Optional[int] = 0` — an omitted distance becomes `0`, not `None`. -/
def EvaluateInMilesDefault : Option Int := some 0

/-- JSON-like payloads returned by the registry. -/
inductive Json where
  | null
  | str (s : String)
  | num (n : Int)
  | bool (b : Bool)
  | obj (fields : List (String × Json))
  | arr (items : List Json)

/-- Python truthiness of a JSON-like value. -/
def truthy : Json → Bool
  | .null => false
  | .str s => !(s == "")
  | .num n => !(n == 0)
  | .bool b => b
  | .obj fields => !fields.isEmpty
  | .arr items => !items.isEmpty

/-- Python `str()` on the values the verdict logic inspects; containers get
an abbreviated repr (only their truthiness/presence matters to the
eligibility logic modeled here). -/
def pyStr : Json → String
  | .null => "None"
  | .str s => s
  | .num n => toString n
  | .bool true => "True"
  | .bool false => "False"
  | .obj _ => "<dict>"
  | .arr _ => "<list>"

/-- One step of a lookup path: a dict key or a list index. -/
inductive PathElem where
  | key (s : String)
  | idx (n : Nat)

/-- `_dig` from `app/fmcsa.py` (lines 236-249): exact-key dict access and
bounds-checked list indexing along a path. -/
def dig : Json → List PathElem → Option Json
  | cur, [] => some cur
  | cur, .key k :: rest =>
    match cur with
    | .obj fields =>
      match fields.lookup k with
      | some v => dig v rest
      | none => none
    | _ => none
  | cur, .idx i :: rest =>
    match cur with
    | .arr items =>
      match items.get? i with
      | some v => dig v rest
      | none => none
    | _ => none

/-- The case-insensitive single-key lookup inside `_get_case_insensitive`
(`app/fmcsa.py` lines 224-231): Python builds `lowered = dict of k.lower()
to k`, so a later key overwrites an earlier one with the same lowering —
the LAST match wins. -/
def lookupCI (fields : List (String × Json)) (k : String) : Option Json :=
  (fields.reverse.find? fun p => pyLower p.1 == pyLower k).map Prod.snd

/-- `_get_case_insensitive` from `app/fmcsa.py` (lines 215-234). -/
def getCI : Json → List PathElem → Option Json
  | cur, [] => some cur
  | cur, .key k :: rest =>
    match cur with
    | .obj fields =>
      match lookupCI fields k with
      | some v => getCI v rest
      | none => none
    | _ => none
  | cur, .idx i :: rest =>
    match cur with
    | .arr items =>
      match items.get? i with
      | some v => getCI v rest
      | none => none
    | _ => none

mutual
/-- `_scan_for_key` from `app/fmcsa.py` (lines 251-264): depth-first search
for a case-insensitive key, returning the first value found (even a falsy
one — the source checks `found is not None`). -/
def scanForKey : Json → String → Option Json
  | .obj fields, t => scanFields fields t
  | .arr items, t => scanItems items t
  | _, _ => none
/-- The dict branch of `_scan_for_key`: key match first, then recurse into
the value, then move to the next field. -/
def scanFields : List (String × Json) → String → Option Json
  | [], _ => none
  | (k, v) :: rest, t =>
    if pyLower k == pyLower t then some v
    else match scanForKey v t with
      | some f => some f
      | none => scanFields rest t
/-- The list branch of `_scan_for_key`. -/
def scanItems : List Json → String → Option Json
  | [], _ => none
  | v :: rest, t =>
    match scanForKey v t with
    | some f => some f
    | none => scanItems rest t
end

/-- `isinstance(v, (dict, list))`. -/
def isContainer : Json → Bool
  | .obj _ => true
  | .arr _ => true
  | _ => false

/-- The candidate paths of `_extract_dot_from_docket` (`app/fmcsa.py`
lines 157-163). -/
def docketPaths : List (List PathElem) :=
  [[.key "content", .idx 0, .key "carrier", .key "dotNumber"],
   [.key "content", .idx 0, .key "dotNumber"],
   [.key "carrier", .key "dotNumber"],
   [.key "dotNumber"],
   [.key "items", .idx 0, .key "carrier", .key "dotNumber"]]

/-- The path loop of `_extract_dot_from_docket` (lines 164-167): the first
path whose `_dig` result is truthy (`if v: return str(v)`). -/
def firstTruthyPath (payload : Json) : List (List PathElem) → Option Json
  | [] => none
  | p :: rest =>
    match dig payload p with
    | some v => if truthy v then some v else firstTruthyPath payload rest
    | none => firstTruthyPath payload rest

/-- The top-level fallback scan of `_extract_dot_from_docket` (lines
169-174): for each top-level value that is a dict or list, scan for
`dotNumber`; return the first truthy find. -/
def scanTopLevel : List (String × Json) → Option Json
  | [] => none
  | (_, v) :: rest =>
    if isContainer v then
      match scanForKey v "dotNumber" with
      | some f => if truthy f then some f else scanTopLevel rest
      | none => scanTopLevel rest
    else scanTopLevel rest

/-- `_extract_dot_from_docket` from `app/fmcsa.py` (lines 145-175). -/
def extractDotFromDocket (payload : Json) : Option String :=
  if !truthy payload then none
  else
    match firstTruthyPath payload docketPaths with
    | some v => some (pyStr v)
    | none =>
      match payload with
      | .obj fields => (scanTopLevel fields).map pyStr
      | _ => none

/-- The authority-status field names scanned by
`_collect_authority_statuses` (`app/fmcsa.py` lines 200-207). -/
def authorityKeys : List String :=
  ["commonAuthorityStatus", "contractAuthorityStatus", "brokerAuthorityStatus",
   "authorizedForProperty", "authorizedForPassenger", "authorizedForHouseholdGoods"]

/-- `_collect_authority_statuses` from `app/fmcsa.py` (lines 177-213); the
Python set is modeled as the list of collected entries — membership is all
the verdict consumes. -/
def collectAuthorityStatuses (payload : Json) : List String :=
  if !truthy payload then []
  else
    let records : List Json :=
      match payload with
      | .arr items => items
      | .obj fields =>
        match fields.lookup "content" with
        | some (.arr items) => items
        | _ => [payload]
      | _ => []
    records.foldl (fun acc rec =>
      authorityKeys.foldl (fun acc2 k =>
        match getCI rec [.key k] with
        | some val => if truthy val then acc2 ++ [pyUpper (pyStr val)] else acc2
        | none => acc2) acc) []

/-- Python `x or y`: `y` when `x` is falsy. -/
def pyOr (a b : Option Json) : Option Json :=
  match a with
  | some v => if truthy v then some v else b
  | none => b

/-- `str()` of a possibly absent value: `str(None) = "None"`. -/
def pyStrOpt : Option Json → String
  | none => "None"
  | some j => pyStr j

/-- The `allow` extraction of `verify_mc` (`app/fmcsa.py` line 71). -/
def extractAllow (core : Json) : Option Json :=
  pyOr (getCI core [.key "carrier", .key "allowToOperate"])
       (getCI core [.key "allowToOperate"])

/-- The `oos` extraction of `verify_mc` (`app/fmcsa.py` line 72). -/
def extractOOS (core : Json) : Option Json :=
  pyOr (getCI core [.key "carrier", .key "outOfService"])
       (getCI core [.key "outOfService"])

/-- A Python exception, as far as `_is_retryable` inspects it: whether it
is a `requests.Timeout`, and its `str()` text. -/
structure PyErr where
  isTimeout : Bool
  text : String
deriving DecidableEq

/-- The four logical registry requests issued by `verify_mc`. -/
inductive FetchReq where
  | docket (mc : String)
  | carrier (dot : String)
  | authority (dot : String)
  | oos (dot : String)
deriving DecidableEq

/-- The verdict fields of `VerifyResult` in `app/fmcsa.py` (lines 23-28);
the `raw` audit bundle of opaque fragments is not modeled. -/
structure VerifyResult where
  mc : String
  dot : Option String
  eligible : Bool
  status : String
deriving DecidableEq

/-- `FmcsaClient.verify_mc` from `app/fmcsa.py` (lines 40-101), over an
oracle `get` giving each registry request its `_get_json` outcome. The
returned list records which requests were issued. The best-effort
out-of-service request (lines 80-84) is issued but its response and its
failure are ignored by the verdict, so only its trace entry appears. -/
def verify_mc (get : FetchReq → Except PyErr Json) (mc : String) :
    Except PyErr (VerifyResult × List FetchReq) :=
  let norm_mc := pyDigits mc
  match get (.docket norm_mc) with
  | .error e => .error e
  | .ok res =>
    match extractDotFromDocket res with
    | none => .ok (⟨norm_mc, none, false, "not_found"⟩, [.docket norm_mc])
    | some dot =>
      match get (.carrier dot) with
      | .error e => .error e
      | .ok core =>
        match get (.authority dot) with
        | .error e => .error e
        | .ok auth =>
          let trace := [FetchReq.docket norm_mc, .carrier dot, .authority dot, .oos dot]
          let allow_ok := pyUpper (pyStrOpt (extractAllow core)) == "Y"
          let oos_y := pyUpper (pyStrOpt (extractOOS core)) == "Y"
          let has_active := (collectAuthorityStatuses auth).any
            (fun s => s == "ACTIVE" || s == "AUTHORIZED")
          if allow_ok && !oos_y && has_active then
            .ok (⟨norm_mc, some dot, true, "authorized"⟩, trace)
          else if oos_y then
            .ok (⟨norm_mc, some dot, false, "out_of_service"⟩, trace)
          else
            .ok (⟨norm_mc, some dot, false, "not_authorized"⟩, trace)

/-- An oracle that answers the four request kinds with fixed payloads. -/
def oracleOf (docket core auth oosResp : Json) : FetchReq → Except PyErr Json
  | .docket _ => .ok docket
  | .carrier _ => .ok core
  | .authority _ => .ok auth
  | .oos _ => .ok oosResp

/-- The MC guard of the `/verify_carrier` endpoint (`app/main.py` lines
159-161): digits-normalize, reject with 400 "Missing MC" when empty,
before any upstream request is issued. -/
def verify_carrier_mc_check (mc : String) : Except String String :=
  let m := pyDigits mc
  if m = "" then .error "Missing MC" else .ok m

/-- Sample docket payload in the common `content`-wrapped shape. -/
def docketSample : Json :=
  .obj [("content", .arr [.obj [("carrier", .obj [("dotNumber", .num 12345)])]])]

/-- Sample carrier record: allowed to operate, not out of service. -/
def coreSample : Json :=
  .obj [("carrier", .obj [("allowToOperate", .str "Y"), ("outOfService", .str "N")])]

/-- Same carrier record with only `outOfService` flipped to `Y`. -/
def coreSampleOOS : Json :=
  .obj [("carrier", .obj [("allowToOperate", .str "Y"), ("outOfService", .str "Y")])]

/-- Sample authority record whose collected status set contains ACTIVE. -/
def authSample : Json :=
  .obj [("content", .arr [.obj [("commonAuthorityStatus", .str "Active")]])]

/-- Substring test on character lists (Python `needle in haystack`). -/
def listContains (needle : List Char) : List Char → Bool
  | [] => needle.isEmpty
  | c :: rest => needle.isPrefixOf (c :: rest) || listContains needle rest

/-- Python `sub in s` on strings. -/
def pyIn (sub s : String) : Bool := listContains sub.data s.data

/-- `_is_retryable` from `app/fmcsa.py` (lines 141-143): a timeout, or an
exception whose text contains "502", "503" or "504". -/
def isRetryable (e : PyErr) : Bool :=
  e.isTimeout || pyIn "502" e.text || pyIn "503" e.text || pyIn "504" e.text

/-- What the network yields for one HTTP attempt. -/
inductive AttemptOutcome where
  | timeout
  | response (status : Nat) (body : Json)

/-- The message of the RuntimeError raised on a 401 in `_get_json`
(`app/fmcsa.py` line 115). -/
def auth401Text : String := "FMCSA 401 Unauthorized (check webKey)"

/-- The text of the `requests.HTTPError` raised by `raise_for_status`: its
message carries the status code and the full request URL
("NNN Client/Server Error: reason for url: URL"). -/
def httpErrText (status : Nat) (url : String) : String :=
  toString status ++ " Error for url: " ++ url

/-- One attempt of the `_get_json` loop body (`app/fmcsa.py` lines
113-117): a 401 raises the auth RuntimeError, any other status of 400 or
above raises HTTPError via `raise_for_status`, otherwise the JSON body is
returned. -/
def attemptEval (url : String) (o : AttemptOutcome) : Except PyErr Json :=
  match o with
  | .timeout => .error ⟨true, "request timed out"⟩
  | .response st body =>
    if st = 401 then .error ⟨false, auth401Text⟩
    else if 400 ≤ st then .error ⟨false, httpErrText st url⟩
    else .ok body

/-- `RETRIES = 2` from `app/fmcsa.py` line 20. -/
def RETRIES : Nat := 2

/-- The retry loop of `_get_json` (`app/fmcsa.py` lines 110-124), returning
the result together with the number of attempts performed. `left` is the
number of attempts still allowed, so `left = RETRIES + 1 - idx`; the
condition `attempt < RETRIES` of line 120 is `0 < left - 1`. The exhausted
fuel case is the unreachable `assert False` of line 124. -/
def getJsonAux (url : String) (outcomes : Nat → AttemptOutcome) :
    Nat → Nat → Except PyErr Json × Nat
  | 0, idx => (.error ⟨false, "unreachable"⟩, idx)
  | left + 1, idx =>
    match attemptEval url (outcomes idx) with
    | .ok j => (.ok j, idx + 1)
    | .error e =>
      if 0 < left ∧ isRetryable e = true then getJsonAux url outcomes left (idx + 1)
      else (.error e, idx + 1)

/-- `_get_json` (`app/fmcsa.py` lines 105-124): at most `RETRIES + 1 = 3`
attempts, starting at attempt index 0. -/
def getJson (url : String) (outcomes : Nat → AttemptOutcome) :
    Except PyErr Json × Nat :=
  getJsonAux url outcomes (RETRIES + 1) 0

/-- Attempt `i` failed and `_is_retryable` classified it as transient. -/
def retryableAt (url : String) (o : Nat → AttemptOutcome) (i : Nat) : Prop :=
  ∃ e, attemptEval url (o i) = .error e ∧ isRetryable e = true

/-- A docket-number URL whose text contains "502" because the MC number is
502 (`BASE + "/carriers/docket-number/502?webKey=..."`). -/
def url502 : String :=
  "https://mobile.fmcsa.dot.gov/qc/services/carriers/docket-number/502?webKey=k"

/-- First attempt: a 404 response; afterwards: a 200 response. -/
def outcomes404 : Nat → AttemptOutcome :=
  fun i => if i = 0 then .response 404 .null else .response 200 (.str "ok")

/-- C1 (counterexample): with non-negative rates and round 1, when the
caller-supplied prior offer (1000) is above the cap (125), the counter
branch returns `next_offer = 1000`, strictly above the cap — the claimed
unconditional cap bound fails. -/
theorem cap_guarantee_fails_when_prior_offer_above_cap :
    (evaluate_offer 100 1000 2000 none none 1).decision = Decision.counter ∧
    (evaluate_offer 100 1000 2000 none none 1).cap_rate <
      (evaluate_offer 100 1000 2000 none none 1).next_offer := by
  decide

/-- C1 (amended): whenever the prior offer `prev` is at most the returned
`cap_rate`, the next offer returned by `evaluate_offer` never exceeds
`cap_rate`, in the accept branch and in the counter branch alike. -/
theorem next_offer_le_cap_of_prior_le_cap (listed prev ask : Int) (miles : Option Int)
    (equip : Option String) (rnd : Int)
    (h : prev ≤ (evaluate_offer listed prev ask miles equip rnd).cap_rate) :
    (evaluate_offer listed prev ask miles equip rnd).next_offer ≤
      (evaluate_offer listed prev ask miles equip rnd).cap_rate := by
  simp only [evaluate_offer] at h ⊢
  split_ifs at h ⊢ <;> simp_all

/-- C1 (witness): the amended cap bound at the concrete scenario
listed 2000, prior 2000, ask 2200, round 1 (cap 2325 ≥ 2000). -/
theorem next_offer_le_cap_of_prior_le_cap_witness :
    (evaluate_offer 2000 2000 2200 none none 1).next_offer ≤
      (evaluate_offer 2000 2000 2200 none none 1).cap_rate :=
  next_offer_le_cap_of_prior_le_cap 2000 2000 2200 none none 1 (by decide)

/-- C2 (counterexample): the ask 500 is at or below the prior offer 1000,
yet because the ask is above the cap (125) the engine does not accept — it
counters, holding at 1000 — so the claimed unconditional immediate accept
fails. -/
theorem immediate_accept_fails_when_ask_above_cap :
    (500 : Int) ≤ 1000 ∧
    (evaluate_offer 100 1000 500 none none 1).cap_rate < 500 ∧
    (evaluate_offer 100 1000 500 none none 1).decision = Decision.counter := by
  decide

/-- C2 (amended): if the ask is at or below the prior offer AND at or
below the cap, `evaluate_offer` accepts at the ask, for every round
number. -/
theorem accepts_at_ask_of_ask_le_prior_and_cap (listed prev ask : Int) (miles : Option Int)
    (equip : Option String) (rnd : Int)
    (h1 : ask ≤ prev)
    (h2 : ask ≤ (evaluate_offer listed prev ask miles equip rnd).cap_rate) :
    (evaluate_offer listed prev ask miles equip rnd).decision = Decision.accept ∧
    (evaluate_offer listed prev ask miles equip rnd).next_offer = ask := by
  simp only [evaluate_offer] at h2 ⊢
  split_ifs at h2 ⊢ <;> simp_all

/-- C2 (witness): ask 1900 at or below prior 2000 and cap 2325 is accepted
at 1900. -/
theorem accepts_at_ask_of_ask_le_prior_and_cap_witness :
    (evaluate_offer 2000 2000 1900 none none 1).decision = Decision.accept ∧
    (evaluate_offer 2000 2000 1900 none none 1).next_offer = 1900 :=
  accepts_at_ask_of_ask_le_prior_and_cap 2000 2000 1900 none none 1 (by decide) (by decide)

/-- C3 (counterexample): round 3 with ask 2300 within the cap 2325 but a
gap of 300 above the prior offer 2000 is NOT accepted — the engine
counters — so late-round acceptance does require the 50-dollar gap
tolerance. -/
theorem late_round_accept_fails_for_large_gap :
    (2300 : Int) ≤ (evaluate_offer 2000 2000 2300 none none 3).cap_rate ∧
    (evaluate_offer 2000 2000 2300 none none 3).decision = Decision.counter := by
  decide

/-- C3 (amended): for round at least 3, an ask within the cap is accepted
at the ask provided the gap between the ask and the prior offer is at most
50 dollars — the tolerance is required, not irrelevant, in late rounds. -/
theorem accepts_late_round_of_gap_le_50 (listed prev ask : Int) (miles : Option Int)
    (equip : Option String) (rnd : Int)
    (hr : 3 ≤ rnd)
    (h2 : ask ≤ (evaluate_offer listed prev ask miles equip rnd).cap_rate)
    (hg : ask - prev ≤ 50) :
    (evaluate_offer listed prev ask miles equip rnd).decision = Decision.accept ∧
    (evaluate_offer listed prev ask miles equip rnd).next_offer = ask := by
  simp only [evaluate_offer] at h2 ⊢
  split_ifs at h2 ⊢ <;> simp_all

/-- C3 (witness): round 3, ask 2040 within cap 2325, gap 40 at most 50 is
accepted at 2040. -/
theorem accepts_late_round_of_gap_le_50_witness :
    (evaluate_offer 2000 2000 2040 none none 3).decision = Decision.accept ∧
    (evaluate_offer 2000 2000 2040 none none 3).next_offer = 2040 :=
  accepts_late_round_of_gap_le_50 2000 2000 2040 none none 3 (by decide) (by decide) (by decide)

/-- C4: every counter decision returns a next offer at or above the prior
offer `prev`, so threading the `next_offer` of each round into the
`our_offer` of the next round yields a non-decreasing offer sequence
within a session. -/
theorem counter_next_offer_ge_prior (listed prev ask : Int) (miles : Option Int)
    (equip : Option String) (rnd : Int)
    (h : (evaluate_offer listed prev ask miles equip rnd).decision = Decision.counter) :
    prev ≤ (evaluate_offer listed prev ask miles equip rnd).next_offer := by
  simp only [evaluate_offer] at h ⊢
  split_ifs at h ⊢ <;> simp_all <;> omega

/-- C4 (witness): the round-2 counter at listed 1000, prior 1100, ask 1400
stays at or above the prior offer 1100. -/
theorem counter_next_offer_ge_prior_witness :
    (1100 : Int) ≤ (evaluate_offer 1000 1100 1400 none none 2).next_offer :=
  counter_next_offer_ge_prior 1000 1100 1400 none none 2 (by decide)

/-- C7: for listed rate 2000, round 1, prior offer 2000, ask 2200, no
distance (`miles = None` at `compute_cap`) and no equipment class, the cap
is exactly 2325 = round_to_25(2000 + min(325, 500)), and the engine
counters with an offer (2075) strictly between 2000 and 2200, within the
cap. -/
theorem example_scenario_2000_round1_counters_between :
    compute_cap 2000 none none = 2325 ∧
    (evaluate_offer 2000 2000 2200 none none 1).cap_rate = 2325 ∧
    (evaluate_offer 2000 2000 2200 none none 1).decision = Decision.counter ∧
    2000 < (evaluate_offer 2000 2000 2200 none none 1).next_offer ∧
    (evaluate_offer 2000 2000 2200 none none 1).next_offer < 2200 ∧
    (evaluate_offer 2000 2000 2200 none none 1).next_offer ≤ 2325 := by
  decide

/-- C10 (counterexample): `compute_cap` omits the short-haul premium not
only for `miles = None` — distance 300 also omits it (`main.py` line 142
adds the premium only below 300) — and the handler does pass
`miles = None` through to `compute_cap` (an explicit JSON null on the
`Optional[int]` field), yielding the premium-free cap 2325 where the
distance-0 cap is 2375. -/
theorem shorthaul_premium_not_only_for_none_miles :
    shorthaulAdd (some 300) = 0 ∧
    compute_cap 2000 (some 300) none = compute_cap 2000 none none ∧
    (evaluate_offer 2000 2000 2200 none none 1).cap_rate = 2325 ∧
    (evaluate_offer 2000 2000 2200 (some 0) none 1).cap_rate = 2375 := by
  decide

/-- C10 (amended): the `EvaluateIn` model defaults an omitted `miles` to
`0` (not `None`), so the endpoint cap for an omitted distance equals the
cap for distance 0 and always carries the 50-dollar short-haul premium;
`compute_cap` omits the premium for `miles = None` and also for every
distance of at least 300 miles. -/
theorem omitted_distance_defaults_to_zero_with_shorthaul_premium :
    EvaluateInMilesDefault = some 0 ∧
    shorthaulAdd EvaluateInMilesDefault = 50 ∧
    shorthaulAdd none = 0 ∧
    (∀ m : Int, 300 ≤ m → shorthaulAdd (some m) = 0) ∧
    ∀ (listed : Int) (equip : Option String),
      compute_cap listed EvaluateInMilesDefault equip = compute_cap listed (some 0) equip ∧
      compute_cap listed (some 0) equip =
        round_to_25 (listed + min 325 (Int.tdiv listed 4) + equipAdd equip + 50) 1 ∧
      compute_cap listed none equip =
        round_to_25 (listed + min 325 (Int.tdiv listed 4) + equipAdd equip + 0) 1 := by
  refine ⟨rfl, rfl, rfl, ?_, fun _ _ => ⟨rfl, rfl, rfl⟩⟩
  intro m hm
  have h3 : ¬ m < 300 := by omega
  simp [shorthaulAdd, h3]

/-- C10 (witness): the long-haul omission at distance 350, and the
omitted-default cap agreeing with the distance-0 cap at listed 1000. -/
theorem omitted_distance_defaults_to_zero_with_shorthaul_premium_witness :
    shorthaulAdd (some 350) = 0 ∧
    compute_cap 1000 EvaluateInMilesDefault none = compute_cap 1000 (some 0) none :=
  ⟨omitted_distance_defaults_to_zero_with_shorthaul_premium.2.2.2.1 350 (by decide),
   (omitted_distance_defaults_to_zero_with_shorthaul_premium.2.2.2.2 1000 none).1⟩

/-- C5: whenever `allowToOperate` extracts to "Y", `outOfService` extracts
to "N" and the collected authority statuses contain ACTIVE, `verify_mc`
returns eligible with status `authorized`; with only `outOfService`
flipped to "Y" it returns not eligible with status `out_of_service`. -/
theorem verify_mc_authorized_and_out_of_service_verdicts
    (docket core core2 auth oosResp : Json) (mc dotS : String)
    (hdot : extractDotFromDocket docket = some dotS)
    (hallow : pyStrOpt (extractAllow core) = "Y")
    (hoosN : pyStrOpt (extractOOS core) = "N")
    (hact : "ACTIVE" ∈ collectAuthorityStatuses auth)
    (hallow2 : pyStrOpt (extractAllow core2) = "Y")
    (hoosY : pyStrOpt (extractOOS core2) = "Y") :
    (verify_mc (oracleOf docket core auth oosResp) mc).map
        (fun r => (r.1.eligible, r.1.status)) = .ok (true, "authorized") ∧
    (verify_mc (oracleOf docket core2 auth oosResp) mc).map
        (fun r => (r.1.eligible, r.1.status)) = .ok (false, "out_of_service") := by
  have hactive : (collectAuthorityStatuses auth).any
      (fun s => s == "ACTIVE" || s == "AUTHORIZED") = true :=
    List.any_eq_true.mpr ⟨"ACTIVE", hact, by decide⟩
  constructor <;>
    simp [verify_mc, oracleOf, hdot, hallow, hoosN, hallow2, hoosY, hactive, Except.map,
      show pyUpper "Y" = "Y" from rfl, show pyUpper "N" = "N" from rfl]

/-- C5 (witness): the two verdicts at concrete sample records. -/
theorem verify_mc_authorized_and_out_of_service_verdicts_witness :
    (verify_mc (oracleOf docketSample coreSample authSample .null) "12345").map
        (fun r => (r.1.eligible, r.1.status)) = .ok (true, "authorized") ∧
    (verify_mc (oracleOf docketSample coreSampleOOS authSample .null) "12345").map
        (fun r => (r.1.eligible, r.1.status)) = .ok (false, "out_of_service") :=
  verify_mc_authorized_and_out_of_service_verdicts
    docketSample coreSample coreSampleOOS authSample .null "12345" "12345"
    rfl rfl rfl (by decide) rfl rfl

/-- C6: when no DOT number can be extracted from the docket payload,
`verify_mc` returns not eligible with status `not_found` immediately, and
the request trace contains only the docket lookup — no carrier, authority
or out-of-service fetch is performed. -/
theorem verify_mc_not_found_short_circuit
    (get : FetchReq → Except PyErr Json) (mc : String) (res : Json)
    (hget : get (.docket (pyDigits mc)) = .ok res)
    (hext : extractDotFromDocket res = none) :
    verify_mc get mc
      = .ok (⟨pyDigits mc, none, false, "not_found"⟩, [.docket (pyDigits mc)]) := by
  simp [verify_mc, hget, hext]

/-- C6 (witness): an empty-dict docket payload for MC "MC-12" yields
`not_found` with only the docket request issued. -/
theorem verify_mc_not_found_short_circuit_witness :
    verify_mc (fun _ => .ok (.obj [])) "MC-12"
      = .ok (⟨"12", none, false, "not_found"⟩, [.docket "12"]) :=
  verify_mc_not_found_short_circuit (fun _ => .ok (.obj [])) "MC-12" (.obj []) rfl rfl

/-- C8 (counterexample): for the input "abc", whose digits-only
normalization is empty, `FmcsaClient.verify_mc` does NOT fail with an
InvalidInput error — it performs the docket registry lookup with the empty
string and returns a `not_found` verdict. -/
theorem empty_mc_fmcsa_client_still_performs_lookup :
    pyDigits "abc" = "" ∧
    verify_mc (fun _ => .ok (.obj [])) "abc"
      = .ok (⟨"", none, false, "not_found"⟩, [.docket ""]) :=
  ⟨rfl, rfl⟩

/-- C8 (amended): the `/verify_carrier` endpoint rejects an
empty-normalization carrier string with 400 "Missing MC" before any
upstream request, but `FmcsaClient.verify_mc` performs no such check and
issues the docket lookup with the empty string. -/
theorem empty_mc_endpoint_rejects_while_client_looks_up :
    (∀ s : String, pyDigits s = "" → verify_carrier_mc_check s = .error "Missing MC") ∧
    (∀ (get : FetchReq → Except PyErr Json) (s : String) (res : Json),
      pyDigits s = "" → get (.docket "") = .ok res → extractDotFromDocket res = none →
      verify_mc get s = .ok (⟨"", none, false, "not_found"⟩, [.docket ""])) := by
  constructor
  · intro s h
    simp [verify_carrier_mc_check, h]
  · intro get s res h hget hext
    simp [verify_mc, h, hget, hext]

/-- C8 (witness): both amended conjuncts at the concrete input "abc" with
an empty-dict docket response. -/
theorem empty_mc_endpoint_rejects_while_client_looks_up_witness :
    verify_carrier_mc_check "abc" = .error "Missing MC" ∧
    verify_mc (fun _ => .ok (.obj [])) "abc"
      = .ok (⟨"", none, false, "not_found"⟩, [.docket ""]) :=
  ⟨empty_mc_endpoint_rejects_while_client_looks_up.1 "abc" rfl,
   empty_mc_endpoint_rejects_while_client_looks_up.2
     (fun _ => .ok (.obj [])) "abc" (.obj []) rfl rfl rfl⟩

/-- Bounded attempts: the `_get_json` loop with `left` attempts of budget
starting at attempt `idx` performs at most `idx + left` attempts. -/
theorem getJsonAux_attempts_le (url : String) (o : Nat → AttemptOutcome) :
    ∀ (left idx : Nat), (getJsonAux url o left idx).2 ≤ idx + left := by
  intro left
  induction left with
  | zero => intro idx; simp [getJsonAux]
  | succ n ih =>
    intro idx
    simp only [getJsonAux]
    split
    · simp
    · split
      · exact le_trans (ih (idx + 1)) (by omega)
      · simp

/-- C9 (counterexample): for the docket URL of MC number 502, a 404
response — neither a timeout nor a 502/503/504-class response — IS retried
(two attempts are performed), because `_is_retryable` matches the substring
"502" in the exception text, which contains the URL. -/
theorem retry_happens_on_404_when_url_contains_502 :
    outcomes404 0 = AttemptOutcome.response 404 .null ∧
    getJson url502 outcomes404 = (.ok (.str "ok"), 2) :=
  ⟨rfl, rfl⟩

/-- C9 (amended): every registry request is attempted at most 3 times; a
retry happens only when `_is_retryable` classifies the failure as
transient — a timeout, or an exception whose text contains "502"/"503"/
"504" (which covers the 502/503/504-class responses but can also match
other failures whose text contains those digits); a 401 response raises
the authentication error immediately, with no retry, at every attempt at
which it occurs. -/
theorem registry_retry_policy :
    (∀ (url : String) (o : Nat → AttemptOutcome), (getJson url o).2 ≤ 3) ∧
    (∀ (url : String) (o : Nat → AttemptOutcome),
      (1 < (getJson url o).2 → retryableAt url o 0) ∧
      (2 < (getJson url o).2 → retryableAt url o 1)) ∧
    (∀ (url : String) (o : Nat → AttemptOutcome) (idx : Nat) (b : Json) (left : Nat),
      o idx = .response 401 b →
      getJsonAux url o (left + 1) idx = (.error ⟨false, auth401Text⟩, idx + 1)) := by
  refine ⟨?_, ?_, ?_⟩
  · intro url o
    exact getJsonAux_attempts_le url o 3 0
  · intro url o
    constructor
    · intro h
      simp only [getJson, RETRIES, getJsonAux] at h
      rcases h0 : attemptEval url (o 0) with e | j
      · rw [h0] at h
        by_cases hr : isRetryable e = true
        · exact ⟨e, h0, hr⟩
        · simp [hr] at h
      · rw [h0] at h; simp at h
    · intro h
      simp only [getJson, RETRIES, getJsonAux] at h
      rcases h0 : attemptEval url (o 0) with e | j
      · rw [h0] at h
        by_cases hr : isRetryable e = true
        · simp only [hr, if_true] at h
          rcases h1 : attemptEval url (o 1) with e1 | j1
          · rw [h1] at h
            by_cases hr1 : isRetryable e1 = true
            · exact ⟨e1, h1, hr1⟩
            · simp [hr1] at h
          · rw [h1] at h; simp at h
        · simp [hr] at h
      · rw [h0] at h; simp at h
  · intro url o idx b left hresp
    have h4 : attemptEval url (o idx) = .error ⟨false, auth401Text⟩ := by
      rw [hresp]; rfl
    have h5 : isRetryable ⟨false, auth401Text⟩ = false := by decide
    simp [getJsonAux, h4, h5]

/-- C9 (witness): the three amended guarantees at concrete outcome
sequences — a clean 200, a timeout followed by a 200 (one retry), and an
immediate 401 that stops after one attempt. -/
theorem registry_retry_policy_witness :
    (getJson "u" (fun _ => .response 200 .null)).2 ≤ 3 ∧
    retryableAt "u" (fun i => if i = 0 then .timeout else .response 200 .null) 0 ∧
    getJsonAux "u" (fun _ => .response 401 .null) (2 + 1) 0
      = (.error ⟨false, auth401Text⟩, 0 + 1) :=
  ⟨registry_retry_policy.1 "u" _,
   (registry_retry_policy.2.1 "u" _).1 (by decide),
   registry_retry_policy.2.2 "u" _ 0 .null 2 rfl⟩
